import Mathlib

/-!
Verification of the session-and-synchronization coordinator
(`securedrop_client/logic.py`) against its natural-language specification.

The Python module is shallowly embedded: each `Controller` method is a Lean
function over an explicit state, and every side effect on a collaborator
(GUI, job queue, storage, signals) is recorded as an `Event` in an emitted
trace, in the order the source performs it.
-/

namespace SecureDrop

/-- Send status of a draft reply. Modelled from the spec: the `db` module is
not under `src/`; the spec gives `send-status ∈ {PENDING, FAILED, SENT}`
(`db.ReplySendStatusCodes`). -/
inductive SendStatus
  | PENDING
  | FAILED
  | SENT
  deriving DecidableEq, Repr

/-- A locally persisted draft reply, following the fields constructed in
`Controller.send_reply` (logic.py lines 771-779). Timestamps are modelled
as natural numbers. -/
structure DraftReply where
  uuid : String
  timestamp : Nat
  source_id : Nat
  journalist_id : String
  file_counter : Nat
  content : String
  send_status : SendStatus
  deriving DecidableEq, Repr

/-- A locally stored source, with the fields `logic.py` reads
(`uuid`, `is_starred`, `last_updated`, `id`, `interaction_count`). -/
structure Source where
  id : Nat
  uuid : String
  last_updated : Nat
  is_starred : Bool
  interaction_count : Nat
  deriving DecidableEq, Repr

/-- The kind of a downloadable database object (`db.Reply` / `db.Message` /
`db.File`), as dispatched on by `Controller._submit_download_job`. -/
inductive ObjectType
  | Reply
  | Message
  | File
  deriving DecidableEq, Repr

/-- The typed jobs handed to the external `ApiJobQueue`, with the identifying
data their constructors receive in `logic.py`. -/
inductive Job
  | MetadataSyncJob
  | ReplyDownloadJob (uuid : String)
  | MessageDownloadJob (uuid : String)
  | FileDownloadJob (uuid : String)
  | SendReplyJob (source_uuid : String) (reply_uuid : String) (message : String)
  | UpdateStarJob (source_uuid : String) (is_starred : Bool)
  | DeleteSourceJob (source_uuid : String)
  deriving DecidableEq, Repr

/-- Modelled from the spec: the remote API handle (`sdclientapi.API`, an
external collaborator): it carries an optional session token and the
journalist profile fields that `logic.py` reads. -/
structure ApiHandle where
  token : Option String
  token_journalist_uuid : String
  username : String
  journalist_first_name : String
  journalist_last_name : String
  deriving DecidableEq, Repr

/-- Every externally observable side effect performed by the embedded
`Controller` methods, in source order: Qt signal emissions, GUI calls,
job-queue calls and storage calls. -/
inductive Event
  | AuthenticationState (b : Bool)
  | SyncEvents (s : String)
  | UpdateErrorStatus (message : String) (duration : Option Nat) (retry : Bool)
  | ClearErrorStatus
  | UpdateActivityStatus (message : String) (duration : Nat)
  | EnqueueJob (job : Job)
  | ResumeQueues
  | ApiJobQueueLogin
  | ApiJobQueueLogout
  | MarkAllPendingDraftsAsFailed
  | WriteSyncFlag (t : Nat)
  | UpdateMissingFiles
  | ShowSources (sources : List Source)
  | ShowSync
  | HideLogin
  | ShowMainWindow
  | GuiLogout
  | ShowLoginError (message : String)
  | CallApi (name : String)
  | UpdateAndGetUser (uuid : String) (username : String)
      (first_name : String) (last_name : String)
  | CommitDraftReply (d : DraftReply)
  deriving DecidableEq, Repr

/-- The slice of local storage the embedded methods touch: draft replies,
sources, and the uuids of not-yet-downloaded messages and replies. -/
structure StorageState where
  drafts : List DraftReply
  sources : List Source
  new_messages : List String
  new_replies : List String
  deriving DecidableEq, Repr

/-- The `Controller` state relevant to the claims: the private
`__is_authenticated` flag and the optional API handle `self.api`. -/
structure Controller where
  is_authenticated_flag : Bool
  api : Option ApiHandle
  deriving DecidableEq, Repr

/-- Python exceptions raised by the embedded code paths. -/
inductive PyError
  | attributeError
  | noResultFound
  deriving DecidableEq, Repr

def serverUnreachableError : String := "The SecureDrop server cannot be reached."

def signInError : String := "You must sign in to perform this action."

def fileDownloadFailedError : String := "The file download failed. Please try again."

def credentialsError : String :=
  "There was a problem signing in. Please verify your credentials and try again."

def downloadingNewMessagesStatus : String := "Downloading new messages"

/-- Count occurrences of one event in a trace. -/
def countEvent (e : Event) (es : List Event) : Nat :=
  (es.filter (fun x => x = e)).length

/-- Count the authentication-state-changed emissions in a trace, of either
boolean value. -/
def countAuthSignals (es : List Event) : Nat :=
  (es.filter (fun x => match x with
    | Event.AuthenticationState _ => true
    | _ => false)).length

/-- `a` occurs at a strictly earlier position than `b` in the trace `es`. -/
def precedes_in (es : List Event) (a b : Event) : Prop :=
  ∃ i : Fin es.length, ∃ j : Fin es.length,
    i.val < j.val ∧ es.get i = a ∧ es.get j = b

instance (es : List Event) (a b : Event) : Decidable (precedes_in es a b) := by
  unfold precedes_in
  infer_instance

/-- Embeds the `is_authenticated` property setter (logic.py lines 201-205):
emit `authentication_state` and update the private flag only when the
assigned value differs from the current one. -/
def set_is_authenticated (c : Controller) (b : Bool) : Controller × List Event :=
  if c.is_authenticated_flag ≠ b then
    ({ c with is_authenticated_flag := b }, [Event.AuthenticationState b])
  else
    (c, [])

/-- Run a sequence of assignments through the `is_authenticated` setter,
collecting the emitted trace. -/
def run_set_is_authenticated (c : Controller) : List Bool → Controller × List Event
  | [] => (c, [])
  | b :: bs =>
    let p := set_is_authenticated c b
    let q := run_set_is_authenticated p.1 bs
    (q.1, p.2 ++ q.2)

/-- Specification-side count: the number of actual changes of the flag along
a sequence of assigned values, starting from `cur`. -/
def countFlips (cur : Bool) : List Bool → Nat
  | [] => 0
  | b :: bs => (if b ≠ cur then 1 else 0) + countFlips b bs

theorem set_is_authenticated_flag (c : Controller) (b : Bool) :
    (set_is_authenticated c b).1.is_authenticated_flag = b ∨
      (c.is_authenticated_flag = b ∧ (set_is_authenticated c b).1 = c) := by
  by_cases h : c.is_authenticated_flag = b
  · right
    simp [set_is_authenticated, h]
  · left
    simp [set_is_authenticated, h]

theorem run_set_is_authenticated_count (c : Controller) (bs : List Bool) :
    countAuthSignals (run_set_is_authenticated c bs).2 =
      countFlips c.is_authenticated_flag bs := by
  induction bs generalizing c with
  | nil => rfl
  | cons b bs ih =>
    by_cases h : c.is_authenticated_flag = b
    · have ihc := ih c
      rw [h] at ihc
      simp [run_set_is_authenticated, set_is_authenticated, h, countFlips, ihc]
    · have ihc := ih { c with is_authenticated_flag := b }
      simp [run_set_is_authenticated, set_is_authenticated, h, countFlips,
        countAuthSignals, Ne.symm h] at ihc ⊢
      omega

/-- C1: over every sequence of assignments to the authenticated flag (as
performed by login, logout and offline-mode transitions), the
`authentication_state` signal is emitted exactly once per actual change of
the flag, and an assignment of the value the flag already holds emits
nothing. -/
theorem auth_signal_exactly_once_per_change (c : Controller) (bs : List Bool) :
    countAuthSignals (run_set_is_authenticated c bs).2 =
      countFlips c.is_authenticated_flag bs ∧
    (set_is_authenticated c c.is_authenticated_flag).2 = [] := by
  refine ⟨run_set_is_authenticated_count c bs, ?_⟩
  simp [set_is_authenticated]

/-! ## Call bridge (`APICallRunner`) -/

/-- An exception value as seen from `APICallRunner.call_api`: whether it is a
`RequestTimeoutError` instance, plus an identifying payload. -/
structure PyException where
  is_request_timeout : Bool
  message : String
  deriving DecidableEq, Repr

/-- The behaviour of the blocking callable handed to the runner: it either
returns a value or raises an exception. -/
inductive CallBehaviour (α : Type)
  | ok (v : α)
  | raises (e : PyException)
  deriving DecidableEq, Repr

/-- The three Qt signals `APICallRunner` can emit. -/
inductive RunnerSignal
  | call_succeeded
  | call_failed
  | call_timed_out
  deriving DecidableEq, Repr

/-- `self.result`: initially `none`, later the return value or the caught
exception. -/
inductive RunnerResult (α : Type)
  | none
  | value (v : α)
  | error (e : PyException)
  deriving DecidableEq, Repr

/-- The observable outcome of one `call_api` run: the final `self.result`
and the signals emitted, in emission order. -/
structure RunnerOutcome (α : Type) where
  result : RunnerResult α
  signals : List RunnerSignal
  deriving DecidableEq, Repr

/-- Embeds `APICallRunner.call_api` (logic.py lines 75-91): on normal return,
store the value and emit `call_succeeded`; on an exception, first emit
`call_timed_out` when it is a `RequestTimeoutError`, store the exception,
and emit `call_failed`. -/
def call_api {α : Type} (behaviour : CallBehaviour α) : RunnerOutcome α :=
  match behaviour with
  | CallBehaviour.ok v =>
      { result := RunnerResult.value v, signals := [RunnerSignal.call_succeeded] }
  | CallBehaviour.raises e =>
      { result := RunnerResult.error e,
        signals :=
          (if e.is_request_timeout then [RunnerSignal.call_timed_out] else [])
            ++ [RunnerSignal.call_failed] }

/-- Count occurrences of one signal in an emission list. -/
def countSignal (s : RunnerSignal) (l : List RunnerSignal) : Nat :=
  (l.filter (fun x => x = s)).length

/-- C5: each call-bridge invocation delivers exactly one of succeeded/failed:
on normal return only success is signalled with the value captured; on an
exception the error is captured and failure signalled; a timeout
additionally signals timed-out but still signals failed. -/
theorem call_bridge_exactly_one_outcome {α : Type} (b : CallBehaviour α) :
    countSignal RunnerSignal.call_succeeded (call_api b).signals +
      countSignal RunnerSignal.call_failed (call_api b).signals = 1 ∧
    (∀ v : α, b = CallBehaviour.ok v →
      (call_api b).signals = [RunnerSignal.call_succeeded] ∧
      (call_api b).result = RunnerResult.value v) ∧
    (∀ e : PyException, b = CallBehaviour.raises e →
      RunnerSignal.call_failed ∈ (call_api b).signals ∧
      (call_api b).result = RunnerResult.error e ∧
      (RunnerSignal.call_timed_out ∈ (call_api b).signals ↔
        e.is_request_timeout = true)) := by
  refine ⟨?_, ?_, ?_⟩
  · cases b with
    | ok v => simp [call_api, countSignal]
    | raises e =>
      by_cases h : e.is_request_timeout <;>
        simp [call_api, countSignal, h]
  · intro v hv
    subst hv
    simp [call_api]
  · intro e he
    subst he
    by_cases h : e.is_request_timeout <;>
      simp [call_api, h]

/-- Witness for C5 at a concrete input. -/
theorem call_bridge_exactly_one_outcome_witness :
    countSignal RunnerSignal.call_succeeded
        (call_api (CallBehaviour.raises (α := Nat) ⟨true, "timeout"⟩)).signals +
      countSignal RunnerSignal.call_failed
        (call_api (CallBehaviour.raises (α := Nat) ⟨true, "timeout"⟩)).signals = 1 ∧
    RunnerSignal.call_failed ∈
      (call_api (CallBehaviour.raises (α := Nat) ⟨true, "timeout"⟩)).signals ∧
    (call_api (CallBehaviour.raises (α := Nat) ⟨true, "timeout"⟩)).result =
      RunnerResult.error ⟨true, "timeout"⟩ ∧
    (RunnerSignal.call_timed_out ∈
        (call_api (CallBehaviour.raises (α := Nat) ⟨true, "timeout"⟩)).signals ↔
      (true : Bool) = true) := by
  have h := call_bridge_exactly_one_outcome
    (CallBehaviour.raises (α := Nat) ⟨true, "timeout"⟩)
  exact ⟨h.1, (h.2.2 ⟨true, "timeout"⟩ rfl).1, (h.2.2 ⟨true, "timeout"⟩ rfl).2.1,
    (h.2.2 ⟨true, "timeout"⟩ rfl).2.2⟩

/-! ## Sync failure handler -/

/-- Embeds `Controller.on_sync_failure` (logic.py lines 425-434): the body
logs and surfaces the persistent retryable server-unreachable error. It
performs nothing else — in particular it never calls `resume_queues`,
although its own docstring says the queues are resumed. -/
def on_sync_failure (_result : PyException) : List Event :=
  [Event.UpdateErrorStatus serverUnreachableError (some 0) true]

/-- C2 (code bug evidence): `on_sync_failure` surfaces the persistent
retryable server-unreachable error but emits no `ResumeQueues` action, so
the job queue is not resumed on a sync failure, contrary to the method's
docstring and the spec. -/
theorem sync_failure_never_resumes_queue (e : PyException) :
    on_sync_failure e =
      [Event.UpdateErrorStatus serverUnreachableError (some 0) true] ∧
    Event.ResumeQueues ∉ on_sync_failure e := by
  refine ⟨rfl, ?_⟩
  simp [on_sync_failure]

/-! ## Download-verify-retry pipeline -/

/-- Modelled from the spec: `DownloadChecksumMismatchException`
(`securedrop_client.api_jobs.downloads`, not under `src/`) carries the
failed download's `object_type` and `uuid` — "a new job is resubmitted for
the same uuid/kind — the item's identity is stable across retries". -/
structure DownloadChecksumMismatchException where
  object_type : ObjectType
  uuid : String
  deriving DecidableEq, Repr

/-- An exception delivered to a download-failure handler: either the
distinguished checksum-mismatch exception or any other exception. -/
inductive DownloadException
  | checksum_mismatch (e : DownloadChecksumMismatchException)
  | other (e : PyException)
  deriving DecidableEq, Repr

/-- The download job `Controller._submit_download_job` builds for a given
object type and uuid. -/
def download_job_for (object_type : ObjectType) (uuid : String) : Job :=
  match object_type with
  | ObjectType.Reply => Job.ReplyDownloadJob uuid
  | ObjectType.Message => Job.MessageDownloadJob uuid
  | ObjectType.File => Job.FileDownloadJob uuid

/-- Embeds `Controller._submit_download_job` (logic.py lines 503-522):
construct the kind-matching download job, wire its signals to the
kind-specific handlers, and enqueue it. -/
def submit_download_job (object_type : ObjectType) (uuid : String) : List Event :=
  let job : Job :=
    match object_type with
    | ObjectType.Reply => Job.ReplyDownloadJob uuid
    | ObjectType.Message => Job.MessageDownloadJob uuid
    | ObjectType.File => Job.FileDownloadJob uuid
  [Event.EnqueueJob job]

/-- Embeds `Controller.on_message_download_failure` (logic.py lines 541-550):
log, and resubmit the download when the failure is a checksum mismatch. -/
def on_message_download_failure (exc : DownloadException) : List Event :=
  match exc with
  | DownloadException.checksum_mismatch e => submit_download_job e.object_type e.uuid
  | DownloadException.other _ => []

/-- Embeds `Controller.on_reply_download_failure` (logic.py lines 565-574):
log, and resubmit the download when the failure is a checksum mismatch. -/
def on_reply_download_failure (exc : DownloadException) : List Event :=
  match exc with
  | DownloadException.checksum_mismatch e => submit_download_job e.object_type e.uuid
  | DownloadException.other _ => []

/-- Embeds `Controller.on_file_download_failure` (logic.py lines 715-726):
resubmit on checksum mismatch; surface the file-download-failed error on
any other failure. -/
def on_file_download_failure (exc : DownloadException) : List Event :=
  match exc with
  | DownloadException.checksum_mismatch e => submit_download_job e.object_type e.uuid
  | DownloadException.other _ =>
      [Event.UpdateErrorStatus fileDownloadFailedError Option.none false]

/-- The failure handler `_submit_download_job` wires to a job of the given
kind (logic.py lines 511-520). -/
def failure_handler_for (object_type : ObjectType) :
    DownloadException → List Event :=
  match object_type with
  | ObjectType.Reply => on_reply_download_failure
  | ObjectType.Message => on_message_download_failure
  | ObjectType.File => on_file_download_failure

/-- The trace produced by `n` consecutive integrity-mismatch failures of the
download of item `(object_type, uuid)`: each failure invokes the wired
kind-specific failure handler with a mismatch exception carrying the failed
job's identity. -/
def consecutive_mismatch_trace (object_type : ObjectType) (uuid : String) :
    Nat → List Event
  | 0 => []
  | n + 1 =>
      failure_handler_for object_type
          (DownloadException.checksum_mismatch ⟨object_type, uuid⟩)
        ++ consecutive_mismatch_trace object_type uuid n

theorem failure_handler_mismatch_resubmits (t : ObjectType) (u : String) :
    failure_handler_for t (DownloadException.checksum_mismatch ⟨t, u⟩) =
      [Event.EnqueueJob (download_job_for t u)] := by
  cases t <;> rfl

/-- C3: every checksum-mismatch download failure resubmits exactly one job
with the same uuid and kind; `n` consecutive mismatch failures produce
exactly `n` such resubmissions; a file-download checksum mismatch surfaces
no user-visible error, while any other file-download failure surfaces the
file-download-failed message. -/
theorem checksum_mismatch_resubmits_identity (t : ObjectType) (u : String)
    (n : Nat) (e : PyException) :
    failure_handler_for t (DownloadException.checksum_mismatch ⟨t, u⟩) =
      [Event.EnqueueJob (download_job_for t u)] ∧
    consecutive_mismatch_trace t u n =
      List.replicate n (Event.EnqueueJob (download_job_for t u)) ∧
    (∀ m d r, Event.UpdateErrorStatus m d r ∉
      on_file_download_failure (DownloadException.checksum_mismatch ⟨t, u⟩)) ∧
    on_file_download_failure (DownloadException.other e) =
      [Event.UpdateErrorStatus fileDownloadFailedError Option.none false] := by
  refine ⟨failure_handler_mismatch_resubmits t u, ?_, ?_, rfl⟩
  · induction n with
    | zero => rfl
    | succ k ih =>
      simp [consecutive_mismatch_trace, failure_handler_mismatch_resubmits,
        ih, List.replicate_succ]
  · intro m d r
    cases t <;> simp [on_file_download_failure, submit_download_job]

/-! ## Star update and source deletion preconditions -/

/-- Embeds `Controller.on_action_requiring_login` (logic.py lines 362-367):
surface the must-sign-in error. -/
def on_action_requiring_login : List Event :=
  [Event.UpdateErrorStatus signInError Option.none false]

/-- Embeds `Controller.update_star` (logic.py lines 466-480): without an API
handle, surface must-sign-in and return; otherwise wire and enqueue an
`UpdateStarJob` for the source's uuid and current starred flag. -/
def update_star (c : Controller) (source_db_object : Source) : List Event :=
  match c.api with
  | Option.none => on_action_requiring_login
  | Option.some _ =>
      [Event.EnqueueJob
        (Job.UpdateStarJob source_db_object.uuid source_db_object.is_starred)]

/-- Embeds `Controller.delete_source` (logic.py lines 743-760): without an
API handle, surface must-sign-in and return; otherwise wire and enqueue a
`DeleteSourceJob` for the source's uuid. -/
def delete_source (c : Controller) (source : Source) : List Event :=
  match c.api with
  | Option.none => on_action_requiring_login
  | Option.some _ => [Event.EnqueueJob (Job.DeleteSourceJob source.uuid)]

/-- `true` exactly on job-enqueue events. -/
def is_enqueue : Event → Bool
  | Event.EnqueueJob _ => true
  | _ => false

/-- C9: with no API handle, `update_star` and `delete_source` surface the
must-sign-in error and enqueue nothing; with a handle present each enqueues
exactly one job of the matching kind. -/
theorem star_delete_require_live_api (f : Bool) (a : ApiHandle) (s : Source) :
    ((update_star ⟨f, Option.none⟩ s).filter is_enqueue = [] ∧
      update_star ⟨f, Option.none⟩ s =
        [Event.UpdateErrorStatus signInError Option.none false]) ∧
    ((delete_source ⟨f, Option.none⟩ s).filter is_enqueue = [] ∧
      delete_source ⟨f, Option.none⟩ s =
        [Event.UpdateErrorStatus signInError Option.none false]) ∧
    (update_star ⟨f, Option.some a⟩ s).filter is_enqueue =
      [Event.EnqueueJob (Job.UpdateStarJob s.uuid s.is_starred)] ∧
    (delete_source ⟨f, Option.some a⟩ s).filter is_enqueue =
      [Event.EnqueueJob (Job.DeleteSourceJob s.uuid)] := by
  refine ⟨⟨?_, rfl⟩, ⟨?_, rfl⟩, ?_, ?_⟩ <;>
    simp [update_star, delete_source, on_action_requiring_login, is_enqueue]

/-! ## Source list ordering (`update_sources`)

Python's `list.sort(key=lambda x: x.last_updated, reverse=True)` is a stable
descending sort: an element moves ahead of another only when its key is
strictly greater. `insert_desc`/`sort_last_updated_desc` implement exactly
that ordering. -/

/-- Stable descending insertion by `last_updated`: the inserted element is
placed before the first element whose key it is greater than or equal to,
so it never passes an element of equal key. -/
def insert_desc (x : Source) : List Source → List Source
  | [] => [x]
  | y :: ys =>
    if y.last_updated ≤ x.last_updated then x :: y :: ys
    else y :: insert_desc x ys

/-- Stable descending insertion sort by `last_updated`. -/
def sort_last_updated_desc : List Source → List Source
  | [] => []
  | x :: xs => insert_desc x (sort_last_updated_desc xs)

theorem insert_desc_perm (x : Source) (l : List Source) :
    (insert_desc x l).Perm (x :: l) := by
  induction l with
  | nil => simp [insert_desc]
  | cons y ys ih =>
    by_cases h : y.last_updated ≤ x.last_updated
    · simp [insert_desc, h]
    · simp only [insert_desc, if_neg h]
      exact (List.Perm.cons y ih).trans (List.Perm.swap x y ys)

theorem sort_last_updated_desc_perm (l : List Source) :
    (sort_last_updated_desc l).Perm l := by
  induction l with
  | nil => simp [sort_last_updated_desc]
  | cons x xs ih =>
    exact (insert_desc_perm x _).trans (List.Perm.cons x ih)

theorem mem_insert_desc {z x : Source} {l : List Source} :
    z ∈ insert_desc x l ↔ z = x ∨ z ∈ l := by
  constructor
  · intro h
    have := (insert_desc_perm x l).mem_iff.mp h
    simpa using this
  · intro h
    apply (insert_desc_perm x l).mem_iff.mpr
    simpa using h

theorem insert_desc_pairwise (x : Source) (l : List Source)
    (hl : List.Pairwise (fun a b => b.last_updated ≤ a.last_updated) l) :
    List.Pairwise (fun a b => b.last_updated ≤ a.last_updated)
      (insert_desc x l) := by
  induction l with
  | nil => simp [insert_desc]
  | cons y ys ih =>
    rcases List.pairwise_cons.mp hl with ⟨hy, hys⟩
    by_cases h : y.last_updated ≤ x.last_updated
    · simp only [insert_desc, if_pos h]
      refine List.pairwise_cons.mpr ⟨?_, hl⟩
      intro z hz
      rcases List.mem_cons.mp hz with hz | hz
      · subst hz
        exact h
      · exact le_trans (hy z hz) h
    · simp only [insert_desc, if_neg h]
      refine List.pairwise_cons.mpr ⟨?_, ih hys⟩
      intro z hz
      rcases mem_insert_desc.mp hz with hz | hz
      · subst hz
        omega
      · exact hy z hz

theorem sort_last_updated_desc_pairwise (l : List Source) :
    List.Pairwise (fun a b => b.last_updated ≤ a.last_updated)
      (sort_last_updated_desc l) := by
  induction l with
  | nil => simp [sort_last_updated_desc]
  | cons x xs ih => exact insert_desc_pairwise x _ ih

theorem filter_insert_desc (x : Source) (k : Nat) (l : List Source) :
    (insert_desc x l).filter (fun s => s.last_updated == k) =
      if x.last_updated = k
      then x :: l.filter (fun s => s.last_updated == k)
      else l.filter (fun s => s.last_updated == k) := by
  induction l with
  | nil =>
    by_cases h : x.last_updated = k <;>
      simp [insert_desc, List.filter_cons, h]
  | cons y ys ih =>
    simp only [insert_desc]
    by_cases h : y.last_updated ≤ x.last_updated
    · rw [if_pos h]
      by_cases hx : x.last_updated = k <;>
        simp [List.filter_cons, hx]
    · rw [if_neg h]
      simp only [List.filter_cons, ih]
      by_cases hx : x.last_updated = k
      · have hyk : ¬ y.last_updated = k := by omega
        simp [hx, hyk]
      · by_cases hyk : y.last_updated = k <;> simp [hx, hyk]

theorem filter_sort_last_updated_desc (k : Nat) (l : List Source) :
    (sort_last_updated_desc l).filter (fun s => s.last_updated == k) =
      l.filter (fun s => s.last_updated == k) := by
  induction l with
  | nil => rfl
  | cons x xs ih =>
    by_cases hx : x.last_updated = k <;>
      simp [sort_last_updated_desc, filter_insert_desc, hx, List.filter_cons, ih]

/-- The source list as displayed by `Controller.update_sources`
(logic.py lines 446-448): sorted descending by `last_updated` when
nonempty (`if sources: sources.sort(key=..., reverse=True)`). -/
def update_sources_displayed (st : StorageState) : List Source :=
  if st.sources.isEmpty then st.sources
  else sort_last_updated_desc st.sources

/-- Embeds `Controller.update_sources` (logic.py lines 442-450): show the
(sorted) local source list, then refresh the last-sync display. -/
def update_sources (st : StorageState) : List Event :=
  [Event.ShowSources (update_sources_displayed st), Event.ShowSync]

/-- C8: `update_sources` displays the locally stored sources in an order
descending by `last_updated`; the displayed list is a permutation of the
stored one, and sources with equal `last_updated` keep their original
relative order (stability, stated per key value via `filter`). -/
theorem update_sources_sorted_stable (st : StorageState) :
    update_sources st =
      [Event.ShowSources (update_sources_displayed st), Event.ShowSync] ∧
    List.Pairwise (fun a b => b.last_updated ≤ a.last_updated)
      (update_sources_displayed st) ∧
    (update_sources_displayed st).Perm st.sources ∧
    ∀ k : Nat,
      (update_sources_displayed st).filter (fun s => s.last_updated == k) =
        st.sources.filter (fun s => s.last_updated == k) := by
  refine ⟨rfl, ?_, ?_, ?_⟩
  · by_cases h : st.sources.isEmpty
    · simp [update_sources_displayed, h, List.isEmpty_iff.mp h]
    · simpa [update_sources_displayed, h] using
        sort_last_updated_desc_pairwise st.sources
  · by_cases h : st.sources.isEmpty
    · simp [update_sources_displayed, h]
    · simpa [update_sources_displayed, h] using
        sort_last_updated_desc_perm st.sources
  · intro k
    by_cases h : st.sources.isEmpty
    · simp [update_sources_displayed, h]
    · simpa [update_sources_displayed, h] using
        filter_sort_last_updated_desc k st.sources

/-! ## Session operations: login, logout, offline mode -/

/-- Modelled from the spec: `storage.mark_all_pending_drafts_as_failed`
(`securedrop_client.storage`, not under `src/`): "on login, all PENDING
drafts are swept to FAILED as a consistency reset". -/
def mark_all_pending_drafts_as_failed (st : StorageState) : StorageState :=
  { st with
    drafts := st.drafts.map (fun d =>
      if d.send_status = SendStatus.PENDING
      then { d with send_status := SendStatus.FAILED }
      else d) }

/-- Embeds `Controller.login` (logic.py lines 311-325): sweep pending drafts
to failed, install a freshly constructed API handle, and dispatch the
authenticate call through the call bridge. -/
def login (c : Controller) (st : StorageState) (new_api : ApiHandle) :
    Controller × StorageState × List Event :=
  let st1 := mark_all_pending_drafts_as_failed st
  ({ c with api := Option.some new_api }, st1,
    [Event.MarkAllPendingDraftsAsFailed, Event.CallApi "authenticate"])

/-- Embeds `Controller.login_offline_mode` (logic.py lines 352-360): hide
the login view, show the main window, sweep pending drafts, drop the
authenticated flag, and refresh the displayed source list. -/
def login_offline_mode (c : Controller) (st : StorageState) :
    Controller × StorageState × List Event :=
  let st1 := mark_all_pending_drafts_as_failed st
  let p := set_is_authenticated c false
  (p.1, st1,
    [Event.HideLogin, Event.ShowMainWindow, Event.MarkAllPendingDraftsAsFailed]
      ++ p.2 ++ update_sources st1)

/-- Embeds `Controller.logout` (logic.py lines 482-494): dispatch the logout
call via `self.api.logout` (an `AttributeError` when the handle is absent),
clear the handle, tell the job queue to log out, sweep pending drafts,
log the GUI out, and drop the authenticated flag. -/
def logout (c : Controller) (st : StorageState) :
    Except PyError (Controller × StorageState × List Event) :=
  match c.api with
  | Option.none => Except.error PyError.attributeError
  | Option.some _ =>
      let c1 : Controller := { c with api := Option.none }
      let st1 := mark_all_pending_drafts_as_failed st
      let p := set_is_authenticated c1 false
      Except.ok (p.1, st1,
        [Event.CallApi "logout", Event.ApiJobQueueLogout,
          Event.MarkAllPendingDraftsAsFailed, Event.GuiLogout] ++ p.2)

/-- No draft in storage is PENDING. -/
def no_pending (st : StorageState) : Prop :=
  ∀ d ∈ st.drafts, d.send_status ≠ SendStatus.PENDING

/-- Every draft that was PENDING in `st0` appears in `st1` with status
FAILED and all other fields unchanged. -/
def swept_to_failed (st0 st1 : StorageState) : Prop :=
  ∀ d ∈ st0.drafts, d.send_status = SendStatus.PENDING →
    { d with send_status := SendStatus.FAILED } ∈ st1.drafts

theorem mark_all_pending_no_pending (st : StorageState) :
    no_pending (mark_all_pending_drafts_as_failed st) := by
  intro d hd
  simp only [mark_all_pending_drafts_as_failed, List.mem_map] at hd
  rcases hd with ⟨d0, _, rfl⟩
  by_cases h : d0.send_status = SendStatus.PENDING <;> simp [h]

theorem mark_all_pending_swept (st : StorageState) :
    swept_to_failed st (mark_all_pending_drafts_as_failed st) := by
  intro d hd hp
  simp only [mark_all_pending_drafts_as_failed, List.mem_map]
  exact ⟨d, hd, by simp [hp]⟩

/-- C4: after `login`, `login_offline_mode`, and (when an API handle is
present, without which `logout` raises before doing anything) `logout`,
every previously PENDING draft has been swept to FAILED, no draft remains
PENDING, and the sweep call is part of the operation's own action trace. -/
theorem pending_drafts_swept_on_session_change (c : Controller)
    (st : StorageState) (new_api : ApiHandle) (f : Bool) (a : ApiHandle) :
    (no_pending (login c st new_api).2.1 ∧
      swept_to_failed st (login c st new_api).2.1 ∧
      Event.MarkAllPendingDraftsAsFailed ∈ (login c st new_api).2.2) ∧
    (no_pending (login_offline_mode c st).2.1 ∧
      swept_to_failed st (login_offline_mode c st).2.1 ∧
      Event.MarkAllPendingDraftsAsFailed ∈ (login_offline_mode c st).2.2) ∧
    (∃ c1 st1 tr, logout ⟨f, Option.some a⟩ st = Except.ok (c1, st1, tr) ∧
      no_pending st1 ∧ swept_to_failed st st1 ∧
      Event.MarkAllPendingDraftsAsFailed ∈ tr) := by
  refine ⟨⟨mark_all_pending_no_pending st, mark_all_pending_swept st, ?_⟩,
    ⟨mark_all_pending_no_pending st, mark_all_pending_swept st, ?_⟩, ?_⟩
  · simp [login]
  · simp [login_offline_mode]
  · refine ⟨_, _, _, rfl, mark_all_pending_no_pending st,
      mark_all_pending_swept st, ?_⟩
    simp [logout]

/-- Witness for C4 at a concrete input: one PENDING draft is swept by each
operation. -/
theorem pending_drafts_swept_on_session_change_witness :
    no_pending (login ⟨false, Option.none⟩
      ⟨[⟨"r1", 0, 1, "j", 2, "hi", SendStatus.PENDING⟩], [], [], []⟩
      ⟨Option.none, "ju", "u", "f", "l"⟩).2.1 := by
  have h := pending_drafts_swept_on_session_change ⟨false, Option.none⟩
    ⟨[⟨"r1", 0, 1, "j", 2, "hi", SendStatus.PENDING⟩], [], [], []⟩
    ⟨Option.none, "ju", "u", "f", "l"⟩ false ⟨Option.none, "ju", "u", "f", "l"⟩
  exact h.1.1

/-! ## Sync workflow -/

/-- Embeds `Controller.authenticated` (logic.py lines 369-374):
`bool(self.api and self.api.token is not None)`. -/
def authenticated (c : Controller) : Bool :=
  match c.api with
  | Option.none => false
  | Option.some a => a.token.isSome

/-- Embeds `Controller.sync_api` (logic.py lines 376-392): when
`authenticated()`, emit the syncing event, build a `MetadataSyncJob`,
wire its outcome signals, and enqueue it; otherwise do nothing. -/
def sync_api (c : Controller) : List Event :=
  if authenticated c then
    [Event.SyncEvents "syncing", Event.EnqueueJob Job.MetadataSyncJob]
  else []

/-- Embeds `Controller.download_new_messages` (logic.py lines 524-531). -/
def download_new_messages (st : StorageState) : List Event :=
  (if st.new_messages.length > 0
    then [Event.UpdateActivityStatus downloadingNewMessagesStatus 5000]
    else [])
  ++ st.new_messages.flatMap (fun u => submit_download_job ObjectType.Message u)

/-- Embeds `Controller.download_new_replies` (logic.py lines 552-555). -/
def download_new_replies (st : StorageState) : List Event :=
  st.new_replies.flatMap (fun u => submit_download_job ObjectType.Reply u)

/-- Embeds `Controller.on_sync_success` (logic.py lines 404-423): clear the
persistent error status, write the current time to the sync-flag file,
update missing files, refresh the source list, download new messages and
replies, emit the synced event, and resume the queues. Returns the new
sync-flag file contents together with the action trace. -/
def on_sync_success (now : Nat) (st : StorageState) (_sync_flag : Option Nat) :
    Option Nat × List Event :=
  (Option.some now,
    Event.ClearErrorStatus ::
    Event.WriteSyncFlag now ::
    Event.UpdateMissingFiles ::
    (update_sources st ++ download_new_messages st ++ download_new_replies st
      ++ [Event.SyncEvents "synced", Event.ResumeQueues]))

/-- C6: in the sync success handler the error status is cleared and the
last-sync marker written strictly before the synced notification; the
persisted marker equals the completed sync's time (so any observer of the
synced event sees a marker at least that recent); across two successive
successful syncs at non-decreasing wall-clock times the marker is
non-decreasing. -/
theorem sync_success_marker_before_synced (now t1 t2 : Nat)
    (st st1 st2 : StorageState) (f : Option Nat) (h : t1 ≤ t2) :
    (∃ pre post,
      (on_sync_success now st f).2 = pre ++ Event.SyncEvents "synced" :: post ∧
      Event.ClearErrorStatus ∈ pre ∧ Event.WriteSyncFlag now ∈ pre) ∧
    (on_sync_success now st f).1 = Option.some now ∧
    (on_sync_success t1 st1 f).1.getD 0 ≤
      (on_sync_success t2 st2 (on_sync_success t1 st1 f).1).1.getD 0 := by
  refine ⟨⟨Event.ClearErrorStatus :: Event.WriteSyncFlag now ::
      Event.UpdateMissingFiles ::
      (update_sources st ++ download_new_messages st ++ download_new_replies st),
    [Event.ResumeQueues], ?_, ?_, ?_⟩, rfl, ?_⟩
  · simp [on_sync_success]
  · simp
  · simp
  · simpa [on_sync_success] using h

/-- Witness for C6 at concrete times and an empty storage. -/
theorem sync_success_marker_before_synced_witness :
    (∃ pre post,
      (on_sync_success 5 ⟨[], [], [], []⟩ Option.none).2 =
        pre ++ Event.SyncEvents "synced" :: post ∧
      Event.ClearErrorStatus ∈ pre ∧ Event.WriteSyncFlag 5 ∈ pre) ∧
    (on_sync_success 5 ⟨[], [], [], []⟩ Option.none).1 = Option.some 5 ∧
    (on_sync_success 3 ⟨[], [], [], []⟩ Option.none).1.getD 0 ≤
      (on_sync_success 4 ⟨[], [], [], []⟩
        (on_sync_success 3 ⟨[], [], [], []⟩ Option.none).1).1.getD 0 :=
  sync_success_marker_before_synced 5 3 4 ⟨[], [], [], []⟩ ⟨[], [], [], []⟩
    ⟨[], [], [], []⟩ Option.none (by decide)

/-! ## Authenticate success handler -/

/-- Embeds `Controller.on_authenticate_success` (logic.py lines 327-343):
hide the login view, record the user identity from the API handle's
profile fields, show the main window, hand the handle to the job queue,
trigger an immediate sync via `sync_api`, set `is_authenticated = True`
(emitting the change signal when the flag actually flips), and resume the
queues — in exactly that source order. Reading `self.api.username` raises
an `AttributeError` when the handle is absent. -/
def on_authenticate_success (c : Controller) :
    Except PyError (Controller × List Event) :=
  match c.api with
  | Option.none => Except.error PyError.attributeError
  | Option.some a =>
      let p := set_is_authenticated c true
      Except.ok (p.1,
        [Event.HideLogin,
          Event.UpdateAndGetUser a.token_journalist_uuid a.username
            a.journalist_first_name a.journalist_last_name,
          Event.ShowMainWindow,
          Event.ApiJobQueueLogin]
          ++ sync_api c ++ p.2 ++ [Event.ResumeQueues])

/-- A concrete API handle holding a valid token, for counterexample runs. -/
def apiHandleA : ApiHandle := ⟨Option.some "tok", "juuid", "journalist", "J", "D"⟩

/-- A concrete unauthenticated controller holding `apiHandleA`, i.e. the
state right after a successful authenticate call returns. -/
def controllerA : Controller := ⟨false, Option.some apiHandleA⟩

/-- C7 counterexample: running the authenticate success handler on an
unauthenticated controller whose handle carries a valid token, the
MetadataSync enqueue occurs strictly before the
authentication-state-changed(true) emission, so the claimed order (signal
first, then enqueue) is false on the code. -/
theorem auth_success_signal_after_enqueue_cex :
    ∃ tr : List Event,
      on_authenticate_success controllerA =
        Except.ok (⟨true, Option.some apiHandleA⟩, tr) ∧
      ¬ precedes_in tr (Event.AuthenticationState true)
          (Event.EnqueueJob Job.MetadataSyncJob) ∧
      precedes_in tr (Event.EnqueueJob Job.MetadataSyncJob)
        (Event.AuthenticationState true) := by
  refine ⟨[Event.HideLogin,
    Event.UpdateAndGetUser "juuid" "journalist" "J" "D",
    Event.ShowMainWindow, Event.ApiJobQueueLogin,
    Event.SyncEvents "syncing", Event.EnqueueJob Job.MetadataSyncJob,
    Event.AuthenticationState true, Event.ResumeQueues], ?_, ?_, ?_⟩
  · rfl
  · decide
  · decide

/-- C7 amended: on authenticate success from an unauthenticated state with a
token-bearing handle, the authentication-state-changed(true) signal fires
exactly once and an immediate sync is enqueued exactly once, with the
MetadataSync enqueue preceding the state-change signal in the success
handler. -/
theorem auth_success_enqueues_sync_then_signals (tok ju un fn ln : String) :
    ∃ c1 tr,
      on_authenticate_success
          ⟨false, Option.some ⟨Option.some tok, ju, un, fn, ln⟩⟩ =
        Except.ok (c1, tr) ∧
      countAuthSignals tr = 1 ∧
      Event.AuthenticationState true ∈ tr ∧
      countEvent (Event.EnqueueJob Job.MetadataSyncJob) tr = 1 ∧
      precedes_in tr (Event.EnqueueJob Job.MetadataSyncJob)
        (Event.AuthenticationState true) := by
  refine ⟨⟨true, Option.some ⟨Option.some tok, ju, un, fn, ln⟩⟩,
    [Event.HideLogin, Event.UpdateAndGetUser ju un fn ln,
      Event.ShowMainWindow, Event.ApiJobQueueLogin,
      Event.SyncEvents "syncing", Event.EnqueueJob Job.MetadataSyncJob,
      Event.AuthenticationState true, Event.ResumeQueues],
    ?_, ?_, ?_, ?_, ?_⟩
  · rfl
  · rfl
  · simp
  · simp [countEvent]
  · exact ⟨⟨5, by simp⟩, ⟨6, by simp⟩, by simp, rfl, rfl⟩

/-! ## Reply send workflow -/

/-- Embeds the `.one()` query on sources in `Controller.send_reply`
(logic.py line 768). -/
def find_source (st : StorageState) (source_uuid : String) : Option Source :=
  st.sources.find? (fun s => s.uuid == source_uuid)

/-- Embeds `Controller.send_reply` (logic.py lines 762-792): query the
source (`.one()` raises when absent), construct a PENDING `DraftReply`
reading `self.api.token_journalist_uuid` (an `AttributeError` when the
handle is absent), commit it to the store, and only then build and enqueue
the `SendReplyJob`. -/
def send_reply (c : Controller) (st : StorageState) (now : Nat)
    (source_uuid reply_uuid message : String) :
    Except PyError (StorageState × List Event) :=
  match find_source st source_uuid with
  | Option.none => Except.error PyError.noResultFound
  | Option.some source =>
      match c.api with
      | Option.none => Except.error PyError.attributeError
      | Option.some a =>
          let draft_reply : DraftReply :=
            { uuid := reply_uuid,
              timestamp := now,
              source_id := source.id,
              journalist_id := a.token_journalist_uuid,
              file_counter := source.interaction_count,
              content := message,
              send_status := SendStatus.PENDING }
          Except.ok ({ st with drafts := st.drafts ++ [draft_reply] },
            [Event.CommitDraftReply draft_reply,
              Event.EnqueueJob (Job.SendReplyJob source_uuid reply_uuid message)])

/-- C10: `send_reply` has the undeclared precondition that the API handle is
present: with the source in the store but no handle it raises an
`AttributeError` (rather than surfacing must-sign-in); with a handle, the
PENDING draft is committed to the store, its commit action strictly
preceding the enqueue of the `SendReplyJob`. -/
theorem send_reply_requires_api (f : Bool) (a : ApiHandle) (st : StorageState)
    (now : Nat) (su ru msg : String) (src : Source)
    (h : find_source st su = Option.some src) :
    send_reply ⟨f, Option.none⟩ st now su ru msg =
      Except.error PyError.attributeError ∧
    ∃ d : DraftReply,
      send_reply ⟨f, Option.some a⟩ st now su ru msg =
        Except.ok ({ st with drafts := st.drafts ++ [d] },
          [Event.CommitDraftReply d,
            Event.EnqueueJob (Job.SendReplyJob su ru msg)]) ∧
      d.send_status = SendStatus.PENDING ∧
      d.uuid = ru ∧
      precedes_in [Event.CommitDraftReply d,
          Event.EnqueueJob (Job.SendReplyJob su ru msg)]
        (Event.CommitDraftReply d)
        (Event.EnqueueJob (Job.SendReplyJob su ru msg)) := by
  refine ⟨?_, ⟨⟨ru, now, src.id, a.token_journalist_uuid,
    src.interaction_count, msg, SendStatus.PENDING⟩, ?_, rfl, rfl, ?_⟩⟩
  · simp [send_reply, h]
  · simp [send_reply, h]
  · exact ⟨⟨0, by simp⟩, ⟨1, by simp⟩, by simp, rfl, rfl⟩

/-- Witness for C10 at a concrete storage holding the queried source. -/
theorem send_reply_requires_api_witness :
    send_reply ⟨false, Option.none⟩
        ⟨[], [⟨7, "s1", 3, false, 2⟩], [], []⟩ 11 "s1" "r1" "hello" =
      Except.error PyError.attributeError := by
  have h := send_reply_requires_api false ⟨Option.none, "ju", "u", "f", "l"⟩
    ⟨[], [⟨7, "s1", 3, false, 2⟩], [], []⟩ 11 "s1" "r1" "hello"
    ⟨7, "s1", 3, false, 2⟩ (by decide)
  exact h.1

end SecureDrop
